import Mathlib

/-!
Shallow embedding of the emotion-detection state agent
(`src/agent/state_agent.py` of MAINAKSAHA07/AI-agent-emotion-detction).

Python floats are modelled as exact rationals (`ℚ`); Python's
`round(x, 2)` is modelled as rounding `x * 100` to the nearest integer.
The program itself rounds the underlying binary double, which at a
decimal half-tie (such as 0.7 · 0.85 = 0.595, whose double lies just
below 0.595) can round one hundredth lower than the exact-rational
model; where that difference matters, a theorem takes the program's
rounded value as an explicit input.  Strings are Lean `String`s.
-/

/-- Python `round(x, 2)` of the source on exact rationals: round to 2
decimal places (the program rounds the binary double, which can differ
at values adjacent to a decimal half-tie). -/
def round2 (q : ℚ) : ℚ := (round (q * 100) : ℤ) / 100

/-- The four-key sentiment score map returned by the sentiment service
(`SentimentScore` with keys Positive, Negative, Neutral, Mixed). -/
structure SentimentScores where
  positive : ℚ
  negative : ℚ
  neutral  : ℚ
  mixed    : ℚ
deriving DecidableEq, Repr

/-- Source `max(scores.values())` over the four-key score map. -/
def SentimentScores.maxScore (s : SentimentScores) : ℚ :=
  max (max s.positive s.negative) (max s.neutral s.mixed)

/-- One entry of the static emotion table built by
`_initialize_emotion_mapping` (only the fields the logic reads). -/
structure EmotionMapEntry where
  emotion : String
  valence : ℚ
  arousal : ℚ
  response_template : String
deriving DecidableEq, Repr

/-- The NEUTRAL row of the static emotion table, also the default of
`self.emotion_mapping.get(sentiment, self.emotion_mapping['NEUTRAL'])`. -/
def neutral_entry : EmotionMapEntry :=
  { emotion := "Calm / Indifference / Contemplative"
    valence := 0
    arousal := 2/10
    response_template := "I appreciate you sharing that with me. How can I help you today?" }

/-- The static emotion table, with the dictionary lookup
`self.emotion_mapping.get(sentiment, self.emotion_mapping['NEUTRAL'])`
folded in: unknown labels get the NEUTRAL entry. -/
def emotion_mapping (sentiment : String) : EmotionMapEntry :=
  if sentiment = "POSITIVE" then
    { emotion := "Joy / Optimism / Excitement"
      valence := 8/10
      arousal := 6/10
      response_template := "That sounds great! I would love to hear more about what is going well for you." }
  else if sentiment = "NEGATIVE" then
    { emotion := "Sadness / Anger / Fear / Frustration"
      valence := -(8/10)
      arousal := 7/10
      response_template := "I can hear that this is really difficult for you. I am here to listen and help however I can." }
  else if sentiment = "NEUTRAL" then
    neutral_entry
  else if sentiment = "MIXED" then
    { emotion := "Conflicted / Uncertain / Ambivalent"
      valence := 2/10
      arousal := 5/10
      response_template := "It sounds like you are working through some complex thoughts. I am here to help you sort through things." }
  else
    neutral_entry

/-- The emotion vector produced by `map_sentiment_to_emotion` and then
grown in place by the later pipeline stages (fields that Python adds to
the dict later are modelled as optional fields that start absent). -/
structure EmotionData where
  emotion : String
  valence : ℚ
  arousal : ℚ
  confidence : ℚ
  response_template : String
  feedback_detected : Bool := false
  response_priority : Option String := none
  conversation_trend : Option String := none
  conversation_pattern : Option String := none
deriving DecidableEq, Repr

/-- Source `map_sentiment_to_emotion`: confidence is the max score, valence and
arousal are table base values scaled by confidence, all rounded to 2
decimal places. -/
def map_sentiment_to_emotion (sentiment : String) (scores : SentimentScores) :
    EmotionData :=
  let emotion_data := emotion_mapping sentiment
  let confidence := scores.maxScore
  let valence := emotion_data.valence * confidence
  let arousal := emotion_data.arousal * confidence
  { emotion := emotion_data.emotion
    valence := round2 valence
    arousal := round2 arousal
    confidence := round2 confidence
    response_template := emotion_data.response_template }

/-- Source `_calculate_emotional_intensity`: weighted score of confidence,
valence magnitude and arousal, bucketed into four tiers. -/
def calculate_emotional_intensity (emotion_data : EmotionData) : String :=
  let confidence := emotion_data.confidence
  let valence := |emotion_data.valence|
  let arousal := emotion_data.arousal
  let intensity_score := confidence * (4/10) + valence * (3/10) + arousal * (3/10)
  if intensity_score > 7/10 then "Very High"
  else if intensity_score > 5/10 then "High"
  else if intensity_score > 3/10 then "Moderate"
  else "Low"

/-- Order of the intensity tiers: Low < Moderate < High < Very High. -/
def intensity_rank : String → ℕ
  | "Very High" => 3
  | "High" => 2
  | "Moderate" => 1
  | _ => 0

/-- Source `_determine_response_strategy`: confidence-tiered valence/arousal
band classification.  The Python high- and moderate-confidence `if`
chains have no `else`, so unmatched points in those tiers fall through
to the trailing `return "ADAPTIVE_CONTEXTUAL"`; the low-confidence
branch ends in an unconditional `else`. -/
def determine_response_strategy (emotion_data : EmotionData) : String :=
  let valence := emotion_data.valence
  let arousal := emotion_data.arousal
  let confidence := emotion_data.confidence
  if confidence > 7/10 then
    if 6/10 ≤ valence ∧ valence ≤ 1 ∧ 6/10 ≤ arousal ∧ arousal ≤ 1 then
      "HIGHLY_EXCITED_DETAILED_EXPLORATION"
    else if -1 ≤ valence ∧ valence ≤ -(6/10) ∧ 6/10 ≤ arousal ∧ arousal ≤ 1 then
      "HIGHLY_STRESSED_URGENT_SUPPORT"
    else if -1 ≤ valence ∧ valence ≤ -(6/10) ∧ 0 ≤ arousal ∧ arousal ≤ 4/10 then
      "HIGHLY_DEPRESSED_GENTLE_SUPPORT"
    else if 6/10 ≤ valence ∧ valence ≤ 1 ∧ 0 ≤ arousal ∧ arousal ≤ 4/10 then
      "HIGHLY_CONTENT_DEEP_CONVERSATION"
    else
      "ADAPTIVE_CONTEXTUAL"
  else if confidence > 4/10 then
    if 2/10 ≤ valence ∧ valence ≤ 8/10 ∧ 5/10 ≤ arousal ∧ arousal ≤ 9/10 then
      "EXCITED_DETAILED_SEARCH"
    else if -(8/10) ≤ valence ∧ valence ≤ -(2/10) ∧ 5/10 ≤ arousal ∧ arousal ≤ 9/10 then
      "STRESSED_URGENT_CLEAR"
    else if -(8/10) ≤ valence ∧ valence ≤ -(2/10) ∧ 1/10 ≤ arousal ∧ arousal ≤ 5/10 then
      "BORED_SIMPLE_CLEAR"
    else if 2/10 ≤ valence ∧ valence ≤ 8/10 ∧ 1/10 ≤ arousal ∧ arousal ≤ 5/10 then
      "CALM_ENGAGING_CONVERSATION"
    else
      "ADAPTIVE_CONTEXTUAL"
  else
    if -(2/10) ≤ valence ∧ valence ≤ 2/10 ∧ 6/10 ≤ arousal ∧ arousal ≤ 1 then
      "UNCERTAIN_BUT_ENERGETIC_EXPLORATION"
    else if -(2/10) ≤ valence ∧ valence ≤ 2/10 ∧ 0 ≤ arousal ∧ arousal ≤ 4/10 then
      "UNCERTAIN_CALM_GUIDANCE"
    else
      "MIXED_EMOTIONS_ADAPTIVE_SUPPORT"

/-- The fixed enumeration of strategy labels the classifier can emit. -/
def strategy_labels : List String :=
  ["HIGHLY_EXCITED_DETAILED_EXPLORATION",
   "HIGHLY_STRESSED_URGENT_SUPPORT",
   "HIGHLY_DEPRESSED_GENTLE_SUPPORT",
   "HIGHLY_CONTENT_DEEP_CONVERSATION",
   "EXCITED_DETAILED_SEARCH",
   "STRESSED_URGENT_CLEAR",
   "BORED_SIMPLE_CLEAR",
   "CALM_ENGAGING_CONVERSATION",
   "UNCERTAIN_BUT_ENERGETIC_EXPLORATION",
   "UNCERTAIN_CALM_GUIDANCE",
   "MIXED_EMOTIONS_ADAPTIVE_SUPPORT",
   "ADAPTIVE_CONTEXTUAL"]

/-- A point matches some tier band of the classifier: one of the four
high-confidence boxes, one of the four moderate-confidence boxes, or
the low-confidence tier (whose final `else` is a catch-all band). -/
def matchesSomeBand (emotion_data : EmotionData) : Prop :=
  let v := emotion_data.valence
  let a := emotion_data.arousal
  let c := emotion_data.confidence
  (c > 7/10 ∧
    ((6/10 ≤ v ∧ v ≤ 1 ∧ 6/10 ≤ a ∧ a ≤ 1) ∨
     (-1 ≤ v ∧ v ≤ -(6/10) ∧ 6/10 ≤ a ∧ a ≤ 1) ∨
     (-1 ≤ v ∧ v ≤ -(6/10) ∧ 0 ≤ a ∧ a ≤ 4/10) ∨
     (6/10 ≤ v ∧ v ≤ 1 ∧ 0 ≤ a ∧ a ≤ 4/10))) ∨
  ((4/10 < c ∧ c ≤ 7/10) ∧
    ((2/10 ≤ v ∧ v ≤ 8/10 ∧ 5/10 ≤ a ∧ a ≤ 9/10) ∨
     (-(8/10) ≤ v ∧ v ≤ -(2/10) ∧ 5/10 ≤ a ∧ a ≤ 9/10) ∨
     (-(8/10) ≤ v ∧ v ≤ -(2/10) ∧ 1/10 ≤ a ∧ a ≤ 5/10) ∨
     (2/10 ≤ v ∧ v ≤ 8/10 ∧ 1/10 ≤ a ∧ a ≤ 5/10))) ∨
  c ≤ 4/10

/-- Whether `needle` is a prefix of `haystack` (character lists). -/
def isSubAt : List Char → List Char → Bool
  | [], _ => true
  | _ :: _, [] => false
  | c :: cs, d :: ds => c == d && isSubAt cs ds

/-- Python's `needle in haystack` substring test on character lists. -/
def containsSub (needle : List Char) : List Char → Bool
  | [] => isSubAt needle []
  | d :: ds => isSubAt needle (d :: ds) || containsSub needle ds

/-- Python's `str.lower()` (ASCII, which covers every indicator). -/
def pyLower (s : List Char) : List Char := s.map Char.toLower

/-- The lexical feedback markers of `_detect_feedback_and_adjust_strategy`. -/
def feedback_indicators : List String :=
  ["didn\x27t like", "don\x27t like", "hate", "terrible", "awful", "bad",
   "make it shorter", "make it better", "too long", "too short",
   "not helpful", "useless", "waste of time", "stupid",
   "give me", "I want", "I need", "show me", "tell me"]

/-- Source `any(indicator in text_lower for indicator in feedback_indicators)`. -/
def is_feedback (text : String) : Bool :=
  feedback_indicators.any (fun indicator =>
    containsSub indicator.data (pyLower text.data))

/-- Source `_detect_feedback_and_adjust_strategy`: on feedback text, flag the
vector, raise arousal by 0.2 (capped at 1.0) and force confidence to at
least 0.7; otherwise return the vector unchanged. -/
def detect_feedback_and_adjust_strategy (text : String)
    (emotion_data : EmotionData) : EmotionData :=
  if is_feedback text then
    { emotion_data with
      feedback_detected := true
      response_priority := some "SOLVE_PROBLEM"
      arousal := min 1 (emotion_data.arousal + 2/10)
      confidence := max (7/10) emotion_data.confidence }
  else
    emotion_data

/-- Source `_calculate_response_temperature`: base 0.5 plus arousal, valence
magnitude, confidence and intensity adjustments, clamped to
[0.2, 0.95]. -/
def calculate_response_temperature (emotion_data : EmotionData) : ℚ :=
  let arousal := emotion_data.arousal
  let valence := emotion_data.valence
  let confidence := emotion_data.confidence
  let base_temp : ℚ := 5/10
  let arousal_adjustment := arousal * (4/10)
  let valence_adjustment := |valence| * (3/10)
  let confidence_adjustment := (confidence - 5/10) * (4/10)
  let emotional_intensity := |valence| + arousal
  let intensity_bonus : ℚ :=
    if emotional_intensity > 12/10 then 1/10
    else if emotional_intensity < 3/10 then -(1/10)
    else 0
  let temperature := base_temp + arousal_adjustment + valence_adjustment +
    confidence_adjustment + intensity_bonus
  max (2/10) (min (95/100) temperature)

/-- One historical conversation exchange: a Python dict whose keys may
be absent, modelled with optional fields. -/
structure Exchange where
  user : Option String := none
  assistant : Option String := none
  emotion : Option String := none
  valence : Option ℚ := none
  arousal : Option ℚ := none
  confidence : Option ℚ := none
deriving DecidableEq, Repr

/-- One element of the `emotional_data` list extracted from annotated
exchanges (those holding `emotion`, `valence` and `arousal` keys). -/
structure EmotionalItem where
  emotion : String
  valence : ℚ
  arousal : ℚ
  confidence : ℚ
deriving DecidableEq, Repr

/-- The extraction loop of `_analyze_conversation_emotional_patterns`:
keep exchanges that carry `emotion`, `valence` and `arousal`;
`confidence` defaults to 0.5 when absent. -/
def extract_emotional_data (conversation_history : List Exchange) :
    List EmotionalItem :=
  conversation_history.filterMap (fun exchange =>
    match exchange.emotion, exchange.valence, exchange.arousal with
    | some em, some v, some a =>
        some { emotion := em, valence := v, arousal := a,
               confidence := exchange.confidence.getD (5/10) }
    | _, _, _ => none)

/-- The summary dict returned by
`_analyze_conversation_emotional_patterns`. -/
structure PatternSummary where
  pattern : String
  trend : String
  avg_valence : ℚ
  avg_arousal : ℚ
  avg_confidence : ℚ
  total_exchanges : ℕ
deriving DecidableEq, Repr

/-- Source `_analyze_conversation_emotional_patterns`: `None` on an empty
history or when no exchange is annotated; otherwise averages the
annotated vectors into a pattern label, and computes a first-half
versus second-half valence trend only when at least 4 annotated
exchanges exist. -/
def analyze_conversation_emotional_patterns
    (conversation_history : List Exchange) : Option PatternSummary :=
  if conversation_history.isEmpty then none
  else
    let emotional_data := extract_emotional_data conversation_history
    if emotional_data.isEmpty then none
    else
      let valences := emotional_data.map (·.valence)
      let arousals := emotional_data.map (·.arousal)
      let confidences := emotional_data.map (·.confidence)
      let n : ℚ := emotional_data.length
      let avg_valence := valences.sum / n
      let avg_arousal := arousals.sum / n
      let avg_confidence := confidences.sum / n
      let pattern :=
        if avg_valence > 3/10 ∧ avg_arousal > 5/10 then
          "Consistently Positive and Energetic"
        else if avg_valence > 3/10 ∧ avg_arousal ≤ 5/10 then
          "Consistently Positive and Calm"
        else if avg_valence < -(3/10) ∧ avg_arousal > 5/10 then
          "Consistently Negative and Stressed"
        else if avg_valence < -(3/10) ∧ avg_arousal ≤ 5/10 then
          "Consistently Negative and Low Energy"
        else
          "Mixed Emotional States"
      let trend :=
        if emotional_data.length ≥ 4 then
          let mid_point := emotional_data.length / 2
          let first_half_valence := (valences.take mid_point).sum / (mid_point : ℚ)
          let second_half_valence :=
            (valences.drop mid_point).sum / ((valences.length - mid_point : ℕ) : ℚ)
          if second_half_valence > first_half_valence + 2/10 then
            "Improving Emotional State"
          else if second_half_valence < first_half_valence - 2/10 then
            "Declining Emotional State"
          else
            "Stable Emotional State"
        else
          "Insufficient Data for Trend Analysis"
      some { pattern := pattern, trend := trend, avg_valence := avg_valence,
             avg_arousal := avg_arousal, avg_confidence := avg_confidence,
             total_exchanges := emotional_data.length }

/-- ASCII whitespace as matched by Python's `str.strip` and `\s`. -/
def pyIsSpace (c : Char) : Bool :=
  c == ' ' || c == '\t' || c == '\n' || c == '\r' || c == '\x0b' || c == '\x0c'

/-- Python's `str.strip()`: drop leading and trailing whitespace. -/
def pyStrip (s : List Char) : List Char :=
  ((s.dropWhile pyIsSpace).reverse.dropWhile pyIsSpace).reverse

/-- Worker for `re.sub(r.s+, . ., text)`: collapse every maximal run of
whitespace to a single space (the flag records whether the previous
character was whitespace). -/
def collapseWsAux : Bool → List Char → List Char
  | _, [] => []
  | prevSpace, c :: cs =>
    if pyIsSpace c then
      if prevSpace then collapseWsAux true cs
      else ' ' :: collapseWsAux true cs
    else c :: collapseWsAux false cs

/-- Python `re.sub` replacing whitespace runs by single spaces. -/
def collapseWs (s : List Char) : List Char := collapseWsAux false s

/-- A character kept by `re.sub(r'[^\w\s.,!?;:\x27-]', '', text)`:
word characters, whitespace and basic punctuation survive. -/
def keepChar (c : Char) : Bool :=
  c.isAlphanum || c == '_' || pyIsSpace c ||
  c == '.' || c == ',' || c == '!' || c == '?' || c == ';' || c == ':' ||
  c == Char.ofNat 39 || c == '-'

/-- Source `preprocess_text`: empty result for blank input, otherwise collapse
whitespace on the stripped text and strip special characters. -/
def preprocess_text (text : String) : String :=
  if (pyStrip text.data).isEmpty then ""
  else
    let stripped := pyStrip text.data
    let collapsed := collapseWs stripped
    String.mk (collapsed.filter keepChar)

/-- Two-digit zero padding for decimal formatting. -/
def pad2 (n : ℕ) : String := if n < 10 then "0" ++ toString n else toString n

/-- Python's `f"{x:.2f}"` on the exact-rational model: two decimal
places, rounding to the nearest hundredth. -/
def format2 (q : ℚ) : String :=
  let sign := if q < 0 then "-" else ""
  let n := (round (|q| * 100) : ℤ).toNat
  sign ++ toString (n / 100) ++ "." ++ pad2 (n % 100)

/-- The loop body of `_enhance_text_with_context` over the enumerated
recent exchanges: exchanges holding both `user` and `assistant` keys
contribute their lines (plus an emotional-context line when present);
the enumeration index advances for every exchange. -/
def exchange_context_parts : ℕ → List Exchange → List String
  | _, [] => []
  | i, exchange :: rest =>
    (match exchange.user, exchange.assistant with
     | some u, some a =>
         ["Exchange " ++ toString i ++ ":",
          "  User: " ++ u,
          "  Assistant: " ++ a] ++
         (match exchange.emotion with
          | some em => ["  [Emotional Context: " ++ em ++ "]"]
          | none => []) ++
         [""]
     | _, _ => []) ++ exchange_context_parts (i + 1) rest

/-- Source `_enhance_text_with_context`: with a non-empty history, prefix the
current message with an emotional-pattern header (when the analyzer
returns one) and the last ten exchanges. -/
def enhance_text_with_context (text : String)
    (conversation_history : List Exchange) : String :=
  if conversation_history.isEmpty then text
  else
    let emotional_context := analyze_conversation_emotional_patterns conversation_history
    let context_exchanges :=
      if conversation_history.length > 10 then
        conversation_history.drop (conversation_history.length - 10)
      else conversation_history
    let header : List String :=
      match emotional_context with
      | some ec =>
          ["CONVERSATION EMOTIONAL PATTERN: " ++ ec.pattern,
           "EMOTIONAL TREND: " ++ ec.trend,
           "AVERAGE VALENCE: " ++ format2 ec.avg_valence,
           "AVERAGE AROUSAL: " ++ format2 ec.avg_arousal,
           ""]
      | none => []
    let context_parts := header ++ ["RECENT CONVERSATION HISTORY:"] ++
      exchange_context_parts 1 context_exchanges
    let context_string := String.intercalate "\n" context_parts
    "COMPREHENSIVE CONVERSATION CONTEXT:\n" ++ context_string ++
      "\n\nCURRENT MESSAGE: " ++ text

/-- The external collaborators consumed by the orchestrator: ChatGPT
rephrasing, Comprehend language detection, Comprehend sentiment
analysis (label and score map) and ChatGPT response generation. -/
structure Collaborators where
  rephrase : String → String
  detect_language : String → Option String
  analyze_sentiment : String → String → String × SentimentScores
  generate_response : EmotionData → String → List Exchange → String

/-- The record assembled by `process_text` on success (the wall-clock
timestamp of the source is outside the model). -/
structure AnalysisResult where
  input_text : String
  rephrased_text : String
  original_text : String
  language : Option String
  sentiment : String
  sentiment_scores : SentimentScores
  emotion : String
  valence : ℚ
  arousal : ℚ
  confidence : ℚ
  adaptive_response : String
  session_id : Option String
deriving DecidableEq, Repr

/-- The names of the collaborator-invoking steps, in pipeline order. -/
def collaborator_calls : List String :=
  ["rephrase_with_chatgpt", "detect_language", "analyze_sentiment",
   "generate_response"]

/-- Source `process_text`: the full pipeline, returning the outcome together
with the list of collaborator calls it performed.  Blank input is
rejected before any collaborator runs; otherwise the text is enriched
with history, rephrased, language-detected, sentiment-analyzed, mapped
to an emotion vector, feedback- and trend-adjusted, and answered. -/
def process_text (co : Collaborators) (text : String)
    (session_id : Option String) (conversation_history : List Exchange) :
    Except String AnalysisResult × List String :=
  let cleaned_text := preprocess_text text
  if cleaned_text = "" then
    (Except.error "Empty or invalid input text", [])
  else
    let enhanced_text := enhance_text_with_context cleaned_text conversation_history
    let rephrased_text := co.rephrase enhanced_text
    let language := co.detect_language rephrased_text
    let sentiment_result := co.analyze_sentiment rephrased_text (language.getD "en")
    let sentiment := sentiment_result.1
    let scores := sentiment_result.2
    let emotion_data := map_sentiment_to_emotion sentiment scores
    let emotion_data := detect_feedback_and_adjust_strategy cleaned_text emotion_data
    let emotion_data :=
      if conversation_history.isEmpty then emotion_data
      else
        match analyze_conversation_emotional_patterns conversation_history with
        | some trends =>
            let ed := { emotion_data with
              conversation_trend := some trends.trend
              conversation_pattern := some trends.pattern }
            if trends.trend = "Improving Emotional State" then
              { ed with valence := min 1 (ed.valence + 1/10) }
            else if trends.trend = "Declining Emotional State" then
              { ed with valence := max (-1) (ed.valence - 1/10) }
            else ed
        | none => emotion_data
    let response := co.generate_response emotion_data text conversation_history
    (Except.ok
      { input_text := cleaned_text
        rephrased_text := rephrased_text
        original_text := text
        language := language
        sentiment := sentiment
        sentiment_scores := scores
        emotion := emotion_data.emotion
        valence := emotion_data.valence
        arousal := emotion_data.arousal
        confidence := emotion_data.confidence
        adaptive_response := response
        session_id := session_id },
     collaborator_calls)

/-- Helper: an emotion vector carrying only the numeric fields the
intensity scorer and strategy classifier read. -/
def mkVec (v a c : ℚ) : EmotionData :=
  { emotion := "", valence := v, arousal := a, confidence := c,
    response_template := "" }

/-- Evaluation of the static table at the "POSITIVE" key. -/
theorem emotion_mapping_pos : (emotion_mapping "POSITIVE").valence = 8/10 ∧
    (emotion_mapping "POSITIVE").arousal = 6/10 := ⟨rfl, rfl⟩

/-- Evaluation of the static table at the "NEGATIVE" key. -/
theorem emotion_mapping_neg : (emotion_mapping "NEGATIVE").valence = -(8/10) ∧
    (emotion_mapping "NEGATIVE").arousal = 7/10 := ⟨rfl, rfl⟩

/-- Claim C1 as stated is false: in Scenario B the confidence is 0.85,
which enters the high-confidence (> 0.7) tier, so the moderate tier's
STRESSED_URGENT_CLEAR is not produced. -/
theorem c1_scenario_b_counterexample :
    determine_response_strategy
      (map_sentiment_to_emotion "NEGATIVE" ⟨5/100, 85/100, 5/100, 5/100⟩)
      ≠ "STRESSED_URGENT_CLEAR" := by
  simp only [map_sentiment_to_emotion, SentimentScores.maxScore, round2,
    determine_response_strategy, emotion_mapping_neg.1, emotion_mapping_neg.2]
  norm_num [round_eq]
  decide

/-- Claim C1 (corrected): Scenario B's vector has confidence 0.85 and
valence −0.68, and the confidence exceeds 0.7, so classification goes
through the high-confidence tier.  The program's arousal is
round(0.7·0.85, 2) on binary doubles, which is 0.59 (the double
0.7·0.85 lies just below 0.595); at the resulting vector
(valence −0.68, arousal 0.59, confidence 0.85) every high-tier band
fails (0.59 < 0.6 and 0.59 > 0.4) and the classifier returns
ADAPTIVE_CONTEXTUAL.  The float-rounded arousal 0.59 enters as an
explicit input because binary-double rounding is outside the
exact-rational model. -/
theorem c1_scenario_b_amended :
    (map_sentiment_to_emotion "NEGATIVE" ⟨5/100, 85/100, 5/100, 5/100⟩).confidence
        = 85/100 ∧
    (map_sentiment_to_emotion "NEGATIVE" ⟨5/100, 85/100, 5/100, 5/100⟩).valence
        = -(68/100) ∧
    (map_sentiment_to_emotion "NEGATIVE" ⟨5/100, 85/100, 5/100, 5/100⟩).confidence
        > 7/10 ∧
    determine_response_strategy (mkVec (-(68/100)) (59/100) (85/100))
        = "ADAPTIVE_CONTEXTUAL" := by
  refine ⟨?_, ?_, ?_, ?_⟩
  · simp only [map_sentiment_to_emotion, SentimentScores.maxScore, round2]
    norm_num [round_eq]
  · simp only [map_sentiment_to_emotion, SentimentScores.maxScore, round2,
      emotion_mapping_neg.1]
    norm_num [round_eq]
  · simp only [map_sentiment_to_emotion, SentimentScores.maxScore, round2]
    norm_num [round_eq]
  · simp only [determine_response_strategy, mkVec]
    norm_num

/-- Claim C3 as stated is false: in Scenario A the intensity score is
0.4·0.9 + 0.3·0.72 + 0.3·0.54 = 0.738 > 0.7, so the scorer does not
return "High". -/
theorem c3_scenario_a_counterexample :
    calculate_emotional_intensity
      (map_sentiment_to_emotion "POSITIVE" ⟨9/10, 2/100, 5/100, 3/100⟩)
      ≠ "High" := by
  simp only [map_sentiment_to_emotion, SentimentScores.maxScore, round2,
    calculate_emotional_intensity, emotion_mapping_pos.1, emotion_mapping_pos.2]
  norm_num [round_eq, abs_of_nonneg, abs_of_nonpos]
  decide

/-- Claim C3 (corrected): Scenario A's vector has confidence 0.9,
valence 0.72 and arousal 0.54 as claimed, but its intensity tier is
"Very High" (score 0.738 exceeds the 0.7 threshold). -/
theorem c3_scenario_a_amended :
    (map_sentiment_to_emotion "POSITIVE" ⟨9/10, 2/100, 5/100, 3/100⟩).confidence
        = 9/10 ∧
    (map_sentiment_to_emotion "POSITIVE" ⟨9/10, 2/100, 5/100, 3/100⟩).valence
        = 72/100 ∧
    (map_sentiment_to_emotion "POSITIVE" ⟨9/10, 2/100, 5/100, 3/100⟩).arousal
        = 54/100 ∧
    calculate_emotional_intensity
      (map_sentiment_to_emotion "POSITIVE" ⟨9/10, 2/100, 5/100, 3/100⟩)
      = "Very High" := by
  refine ⟨?_, ?_, ?_, ?_⟩ <;>
    simp only [map_sentiment_to_emotion, SentimentScores.maxScore, round2,
      calculate_emotional_intensity, emotion_mapping_pos.1, emotion_mapping_pos.2] <;>
    norm_num [round_eq, abs_of_nonneg, abs_of_nonpos]

/-- Claim C5: for every sentiment label and score map, the mapper's
confidence is the maximum of the four class scores, valence and arousal
are the table's base values scaled by that maximum (each rounded to two
decimal places), and any unknown label behaves exactly like NEUTRAL. -/
theorem c5_emotion_mapper_formula (L : String) (S : SentimentScores) :
    (map_sentiment_to_emotion L S).confidence
        = round2 (max (max S.positive S.negative) (max S.neutral S.mixed)) ∧
    (map_sentiment_to_emotion L S).valence
        = round2 ((emotion_mapping L).valence * S.maxScore) ∧
    (map_sentiment_to_emotion L S).arousal
        = round2 ((emotion_mapping L).arousal * S.maxScore) ∧
    (L ≠ "POSITIVE" → L ≠ "NEGATIVE" → L ≠ "NEUTRAL" → L ≠ "MIXED" →
      map_sentiment_to_emotion L S = map_sentiment_to_emotion "NEUTRAL" S) := by
  refine ⟨rfl, rfl, rfl, fun h1 h2 h3 h4 => ?_⟩
  have hL : emotion_mapping L = neutral_entry := by
    unfold emotion_mapping
    rw [if_neg h1, if_neg h2, if_neg h3, if_neg h4]
  have hN : emotion_mapping "NEUTRAL" = neutral_entry := rfl
  simp only [map_sentiment_to_emotion, hL, hN]

/-- Witness for C5 at the unknown label "SURPRISE" and a concrete score
map. -/
theorem c5_emotion_mapper_formula_witness :
    (map_sentiment_to_emotion "SURPRISE" ⟨1/2, 1/4, 1/8, 1/8⟩).confidence
        = round2 (max (max (1/2) (1/4)) (max (1/8) (1/8))) ∧
    map_sentiment_to_emotion "SURPRISE" ⟨1/2, 1/4, 1/8, 1/8⟩
        = map_sentiment_to_emotion "NEUTRAL" ⟨1/2, 1/4, 1/8, 1/8⟩ :=
  ⟨(c5_emotion_mapper_formula "SURPRISE" ⟨1/2, 1/4, 1/8, 1/8⟩).1,
   (c5_emotion_mapper_formula "SURPRISE" ⟨1/2, 1/4, 1/8, 1/8⟩).2.2.2
     (by decide) (by decide) (by decide) (by decide)⟩

/-- Claim C6: for every emotion vector in the valid domain the
modulated temperature lies in [0.2, 0.95] (the clamp guarantees it). -/
theorem c6_temperature_bounds (e : EmotionData)
    (hv : -1 ≤ e.valence ∧ e.valence ≤ 1)
    (ha : 0 ≤ e.arousal ∧ e.arousal ≤ 1)
    (hc : 0 ≤ e.confidence ∧ e.confidence ≤ 1) :
    2/10 ≤ calculate_response_temperature e ∧
      calculate_response_temperature e ≤ 95/100 := by
  unfold calculate_response_temperature
  exact ⟨le_max_left _ _, max_le (by norm_num) (min_le_left _ _)⟩

/-- Witness for C6 at a concrete mid-domain vector. -/
theorem c6_temperature_bounds_witness :
    2/10 ≤ calculate_response_temperature
        { emotion := "Calm / Indifference / Contemplative", valence := 1/2,
          arousal := 1/2, confidence := 1/2, response_template := "t" } ∧
      calculate_response_temperature
        { emotion := "Calm / Indifference / Contemplative", valence := 1/2,
          arousal := 1/2, confidence := 1/2, response_template := "t" } ≤ 95/100 :=
  c6_temperature_bounds _ (by norm_num) (by norm_num) (by norm_num)

/-- Claim C2 as stated is false: on feedback text the detector raises
arousal by 0.2 on every application, so a second run on the vector the
first run produced (arousal 0.2 → 0.4) changes it again. -/
theorem c2_idempotence_counterexample :
    detect_feedback_and_adjust_strategy "hate"
        (detect_feedback_and_adjust_strategy "hate"
          { emotion := "Sadness / Anger / Fear / Frustration", valence := -(1/2),
            arousal := 0, confidence := 1/2, response_template := "t" }) ≠
      detect_feedback_and_adjust_strategy "hate"
        { emotion := "Sadness / Anger / Fear / Frustration", valence := -(1/2),
          arousal := 0, confidence := 1/2, response_template := "t" } := by
  have hf : is_feedback "hate" = true := by decide
  simp only [detect_feedback_and_adjust_strategy, hf, if_true]
  intro h
  have harousal := congrArg EmotionData.arousal h
  simp only [min_def] at harousal
  norm_num at harousal

/-- Claim C2 (corrected): the detector is the identity on non-feedback
text; on feedback text a second application leaves confidence and the
feedback flag unchanged, and is fully idempotent once arousal is
saturated (input arousal ≥ 0.8), but otherwise it escalates arousal
again. -/
theorem c2_idempotence_amended (text : String) (e : EmotionData) :
    (is_feedback text = false → detect_feedback_and_adjust_strategy text e = e) ∧
    (8/10 ≤ e.arousal →
      detect_feedback_and_adjust_strategy text
          (detect_feedback_and_adjust_strategy text e) =
        detect_feedback_and_adjust_strategy text e) ∧
    (detect_feedback_and_adjust_strategy text
        (detect_feedback_and_adjust_strategy text e)).confidence =
      (detect_feedback_and_adjust_strategy text e).confidence ∧
    (detect_feedback_and_adjust_strategy text
        (detect_feedback_and_adjust_strategy text e)).feedback_detected =
      (detect_feedback_and_adjust_strategy text e).feedback_detected := by
  cases hf : is_feedback text with
  | false =>
      simp [detect_feedback_and_adjust_strategy, hf]
  | true =>
      simp only [detect_feedback_and_adjust_strategy, hf, if_true]
      have h2 : max (7/10) (max (7/10) e.confidence) = max (7/10) e.confidence := by
        rw [← max_assoc, max_self]
      refine ⟨fun hcontra => absurd hcontra (by simp), fun hsat => ?_, ?_, ?_⟩
      · have h1 : min 1 (e.arousal + 2/10) = 1 := min_eq_left (by linarith)
        simp only [h1, h2]
        norm_num
      · simp only [h2]
      · trivial

/-- Witness for the amended C2: identity on the non-feedback text
"hello", and true idempotence on feedback text once arousal is
saturated. -/
theorem c2_idempotence_amended_witness :
    detect_feedback_and_adjust_strategy "hello"
        { emotion := "Joy / Optimism / Excitement", valence := 1/2,
          arousal := 1/2, confidence := 1/2, response_template := "t" } =
      { emotion := "Joy / Optimism / Excitement", valence := 1/2,
        arousal := 1/2, confidence := 1/2, response_template := "t" } ∧
    detect_feedback_and_adjust_strategy "hate"
        (detect_feedback_and_adjust_strategy "hate"
          { emotion := "Sadness / Anger / Fear / Frustration", valence := -(1/2),
            arousal := 9/10, confidence := 1/2, response_template := "t" }) =
      detect_feedback_and_adjust_strategy "hate"
        { emotion := "Sadness / Anger / Fear / Frustration", valence := -(1/2),
          arousal := 9/10, confidence := 1/2, response_template := "t" } :=
  ⟨(c2_idempotence_amended "hello" _).1 (by decide),
   (c2_idempotence_amended "hate" _).2.1 (by norm_num)⟩

/-- Evaluation of the tier order on the four tier labels. -/
theorem intensity_rank_eval : intensity_rank "Very High" = 3 ∧
    intensity_rank "High" = 2 ∧ intensity_rank "Moderate" = 1 ∧
    intensity_rank "Low" = 0 := ⟨rfl, rfl, rfl, rfl⟩

/-- Helper: the intensity tier rank is monotone in the underlying
weighted score. -/
theorem intensity_rank_mono (e₁ e₂ : EmotionData)
    (h : e₁.confidence * (4/10) + |e₁.valence| * (3/10) + e₁.arousal * (3/10) ≤
         e₂.confidence * (4/10) + |e₂.valence| * (3/10) + e₂.arousal * (3/10)) :
    intensity_rank (calculate_emotional_intensity e₁) ≤
      intensity_rank (calculate_emotional_intensity e₂) := by
  simp only [calculate_emotional_intensity]
  split_ifs <;>
    simp only [intensity_rank_eval.1, intensity_rank_eval.2.1,
      intensity_rank_eval.2.2.1, intensity_rank_eval.2.2.2] <;>
    first | omega | linarith

/-- Claim C9: with tiers ordered Low < Moderate < High < Very High,
the intensity tier is monotone non-decreasing in confidence, in
valence magnitude and in arousal, each with the other two inputs
fixed. -/
theorem c9_intensity_monotone :
    (∀ v a c c' : ℚ, c ≤ c' →
      intensity_rank (calculate_emotional_intensity (mkVec v a c)) ≤
        intensity_rank (calculate_emotional_intensity (mkVec v a c'))) ∧
    (∀ v v' a c : ℚ, |v| ≤ |v'| →
      intensity_rank (calculate_emotional_intensity (mkVec v a c)) ≤
        intensity_rank (calculate_emotional_intensity (mkVec v' a c))) ∧
    (∀ v a a' c : ℚ, a ≤ a' →
      intensity_rank (calculate_emotional_intensity (mkVec v a c)) ≤
        intensity_rank (calculate_emotional_intensity (mkVec v a' c))) := by
  refine ⟨fun v a c c' h => ?_, fun v v' a c h => ?_, fun v a a' c h => ?_⟩ <;>
    (apply intensity_rank_mono; simp only [mkVec]; linarith)

/-- Witness for C9 in each argument at concrete inputs. -/
theorem c9_intensity_monotone_witness :
    intensity_rank (calculate_emotional_intensity (mkVec (1/2) (1/2) 0)) ≤
      intensity_rank (calculate_emotional_intensity (mkVec (1/2) (1/2) 1)) ∧
    intensity_rank (calculate_emotional_intensity (mkVec (-(1/4)) (1/2) (1/2))) ≤
      intensity_rank (calculate_emotional_intensity (mkVec (3/4) (1/2) (1/2))) ∧
    intensity_rank (calculate_emotional_intensity (mkVec (1/2) 0 (1/2))) ≤
      intensity_rank (calculate_emotional_intensity (mkVec (1/2) 1 (1/2))) :=
  ⟨c9_intensity_monotone.1 (1/2) (1/2) 0 1 (by norm_num),
   c9_intensity_monotone.2.1 (-(1/4)) (3/4) (1/2) (1/2) (by norm_num [abs_of_nonneg, abs_of_nonpos]),
   c9_intensity_monotone.2.2 (1/2) 0 1 (1/2) (by norm_num)⟩

/-- Claim C10: at confidence ≤ 0.4 the classifier always returns one of
the three low-confidence labels and never the fallback; conversely the
ADAPTIVE_CONTEXTUAL fallback forces confidence > 0.4. -/
theorem c10_low_confidence_labels (e : EmotionData) :
    (e.confidence ≤ 4/10 →
      (determine_response_strategy e = "UNCERTAIN_BUT_ENERGETIC_EXPLORATION" ∨
       determine_response_strategy e = "UNCERTAIN_CALM_GUIDANCE" ∨
       determine_response_strategy e = "MIXED_EMOTIONS_ADAPTIVE_SUPPORT") ∧
      determine_response_strategy e ≠ "ADAPTIVE_CONTEXTUAL") ∧
    (determine_response_strategy e = "ADAPTIVE_CONTEXTUAL" →
      4/10 < e.confidence) := by
  constructor
  · intro hc
    have h7 : ¬(e.confidence > 7/10) := by linarith
    have h4 : ¬(e.confidence > 4/10) := by linarith
    simp only [determine_response_strategy, if_neg h7, if_neg h4]
    constructor
    · split_ifs <;> simp
    · split_ifs <;> decide
  · intro hA
    by_contra hc
    push_neg at hc
    have h7 : ¬(e.confidence > 7/10) := by linarith
    have h4 : ¬(e.confidence > 4/10) := by linarith
    simp only [determine_response_strategy, if_neg h7, if_neg h4] at hA
    split_ifs at hA <;> exact absurd hA (by decide)

/-- Witness for C10 at a concrete low-confidence vector. -/
theorem c10_low_confidence_labels_witness :
    (determine_response_strategy (mkVec 0 (1/2) (3/10)) = "UNCERTAIN_BUT_ENERGETIC_EXPLORATION" ∨
     determine_response_strategy (mkVec 0 (1/2) (3/10)) = "UNCERTAIN_CALM_GUIDANCE" ∨
     determine_response_strategy (mkVec 0 (1/2) (3/10)) = "MIXED_EMOTIONS_ADAPTIVE_SUPPORT") ∧
    determine_response_strategy (mkVec 0 (1/2) (3/10)) ≠ "ADAPTIVE_CONTEXTUAL" :=
  (c10_low_confidence_labels (mkVec 0 (1/2) (3/10))).1 (by norm_num [mkVec])

/-- Claim C4: the classifier is total over the valid domain, its output
is always drawn from the fixed twelve-label enumeration, and any point
matching none of the tier bands is classified ADAPTIVE_CONTEXTUAL. -/
theorem c4_strategy_total (e : EmotionData)
    (hv : -1 ≤ e.valence ∧ e.valence ≤ 1)
    (ha : 0 ≤ e.arousal ∧ e.arousal ≤ 1)
    (hc : 0 ≤ e.confidence ∧ e.confidence ≤ 1) :
    determine_response_strategy e ∈ strategy_labels ∧
    (¬ matchesSomeBand e →
      determine_response_strategy e = "ADAPTIVE_CONTEXTUAL") := by
  constructor
  · simp only [determine_response_strategy, strategy_labels]
    split_ifs <;> simp
  · intro hnb
    simp only [matchesSomeBand, not_or] at hnb
    obtain ⟨hhigh, hmod, hlow⟩ := hnb
    push_neg at hlow
    simp only [determine_response_strategy]
    by_cases h7 : e.confidence > 7/10
    · rw [if_pos h7]
      have hb := fun hball => hhigh ⟨h7, hball⟩
      rw [if_neg (fun h => hb (Or.inl h)),
          if_neg (fun h => hb (Or.inr (Or.inl h))),
          if_neg (fun h => hb (Or.inr (Or.inr (Or.inl h)))),
          if_neg (fun h => hb (Or.inr (Or.inr (Or.inr h))))]
    · rw [if_neg h7, if_pos hlow]
      have h47 : 4/10 < e.confidence ∧ e.confidence ≤ 7/10 :=
        ⟨hlow, le_of_not_lt h7⟩
      have hb := fun hball => hmod ⟨h47, hball⟩
      rw [if_neg (fun h => hb (Or.inl h)),
          if_neg (fun h => hb (Or.inr (Or.inl h))),
          if_neg (fun h => hb (Or.inr (Or.inr (Or.inl h)))),
          if_neg (fun h => hb (Or.inr (Or.inr (Or.inr h))))]

/-- Witness for C4 at a concrete in-domain point that no band matches
(confidence 0.5 with valence 0.9, arousal 0.95). -/
theorem c4_strategy_total_witness :
    determine_response_strategy (mkVec (9/10) (95/100) (1/2)) ∈ strategy_labels ∧
    determine_response_strategy (mkVec (9/10) (95/100) (1/2)) = "ADAPTIVE_CONTEXTUAL" :=
  ⟨(c4_strategy_total (mkVec (9/10) (95/100) (1/2))
      (by norm_num [mkVec]) (by norm_num [mkVec]) (by norm_num [mkVec])).1,
   (c4_strategy_total (mkVec (9/10) (95/100) (1/2))
      (by norm_num [mkVec]) (by norm_num [mkVec]) (by norm_num [mkVec])).2
     (by norm_num [matchesSomeBand, mkVec])⟩

/-- Claim C7: the trend analyzer returns nothing when no exchange is
annotated, and with 1 to 3 annotated exchanges it returns a summary
whose trend is the insufficient-data label. -/
theorem c7_trend_insufficient_data (conversation_history : List Exchange) :
    ((extract_emotional_data conversation_history).length = 0 →
      analyze_conversation_emotional_patterns conversation_history = none) ∧
    (1 ≤ (extract_emotional_data conversation_history).length →
      (extract_emotional_data conversation_history).length ≤ 3 →
      ∃ s, analyze_conversation_emotional_patterns conversation_history = some s ∧
        s.trend = "Insufficient Data for Trend Analysis") := by
  constructor
  · intro h0
    simp only [analyze_conversation_emotional_patterns]
    by_cases he : conversation_history.isEmpty = true
    · rw [if_pos he]
    · rw [if_neg he]
      have hext : (extract_emotional_data conversation_history).isEmpty = true := by
        cases hx : extract_emotional_data conversation_history with
        | nil => rfl
        | cons a l => rw [hx] at h0; simp at h0
      rw [if_pos hext]
  · intro h1 h3
    have hne : ¬(conversation_history.isEmpty = true) := by
      cases hh : conversation_history with
      | nil => rw [hh] at h1; simp [extract_emotional_data] at h1
      | cons a l => simp
    have hext : ¬((extract_emotional_data conversation_history).isEmpty = true) := by
      cases hx : extract_emotional_data conversation_history with
      | nil => rw [hx] at h1; simp at h1
      | cons a l => simp
    have h4 : ¬((extract_emotional_data conversation_history).length ≥ 4) := by omega
    simp only [analyze_conversation_emotional_patterns, if_neg hne, if_neg hext]
    exact ⟨_, rfl, by simp [h4]⟩

/-- Witness for C7: a single annotated exchange yields a summary with
the insufficient-data trend. -/
theorem c7_trend_insufficient_data_witness :
    ∃ s, analyze_conversation_emotional_patterns
        [{ user := some "u", assistant := some "a", emotion := some "Joy",
           valence := some (1/2), arousal := some (1/2) }] = some s ∧
      s.trend = "Insufficient Data for Trend Analysis" :=
  (c7_trend_insufficient_data
      [{ user := some "u", assistant := some "a", emotion := some "Joy",
         valence := some (1/2), arousal := some (1/2) }]).2
    (by simp [extract_emotional_data]) (by simp [extract_emotional_data])

/-- Constant collaborators used to exercise the orchestrator (the
sentiment stub returns the NEUTRAL fallback distribution of the
source). -/
def trivial_collaborators : Collaborators :=
  { rephrase := fun s => s
    detect_language := fun _ => some "en"
    analyze_sentiment := fun _ _ => ("NEUTRAL", ⟨25/100, 25/100, 5/10, 0⟩)
    generate_response := fun _ _ _ => "ok" }

/-- Claim C8 as stated is false: the input "@ @" cleans to the
whitespace-only string " ", which is non-empty, so the orchestrator
does not return an error and performs all four collaborator calls. -/
theorem c8_whitespace_counterexample :
    preprocess_text "@ @" = " " ∧
    (process_text trivial_collaborators "@ @" none []).2 = collaborator_calls ∧
    collaborator_calls ≠ [] := by
  refine ⟨by decide, ?_, by decide⟩
  have hcl : ¬(preprocess_text "@ @" = "") := by decide
  simp only [process_text, if_neg hcl]

/-- Claim C8 (corrected): whenever the cleaned text is exactly empty
(in particular for every empty or all-whitespace input), the
orchestrator returns the error result at once and performs no
collaborator call. -/
theorem c8_empty_input_no_calls (co : Collaborators) (text : String)
    (session_id : Option String) (conversation_history : List Exchange)
    (hclean : preprocess_text text = "") :
    process_text co text session_id conversation_history =
      (Except.error "Empty or invalid input text", []) := by
  simp only [process_text, hclean, if_pos]

/-- Witness for the amended C8 on an all-whitespace input. -/
theorem c8_empty_input_no_calls_witness :
    process_text trivial_collaborators "   " none [] =
      (Except.error "Empty or invalid input text", []) :=
  c8_empty_input_no_calls trivial_collaborators "   " none [] (by decide)
